import Mathlib

/-!
Verification development for the research-agent retrieval-augmented
answering service. The definitions below are a shallow embedding of the
Python sources:

* `src/services/retrieval_service.py` (class `RetrievalPipeline`)
* `src/services/graph_service.py` (class `GraphService`)
* `src/services/llm_service.py` (class `LLMService`)
* `src/services/memory_service.py` (class `MemoryService`)
* `src/routers/query_router.py` (endpoints `query`, `handle_research_fallback`,
  `reset_thread`, `get_thread_status`)

Python floats are modelled as rationals, Python exceptions as `Except`,
and calls into the external LLM backends and the external langchain
retriever objects as explicit function parameters (the code treats them
as untrusted oracles). String helpers reproduce the semantics of the
Python `str` methods used by the sources (`split`, `strip`, `lower`,
substring test, slicing), working on the character list of the string so
that all definitions evaluate inside the kernel.
-/

/-- Characters of Python `s.lower()` (per-character lowercasing). -/
def pyLower (s : String) : String := ⟨s.data.map Char.toLower⟩

/-- Python `s.strip()`: drop leading and trailing whitespace. -/
def pyStrip (s : String) : String :=
  ⟨((s.data.dropWhile Char.isWhitespace).reverse.dropWhile Char.isWhitespace).reverse⟩

/-- Python `s[:n]` on strings (slice of the first `n` characters). -/
def pySlice (n : Nat) (s : String) : String := ⟨s.data.take n⟩

/-- Helper for Python `s.split()` (no argument): split on whitespace runs,
dropping empty pieces. `acc` holds the current word reversed. -/
def splitWsAux : List Char → List Char → List (List Char)
  | [], acc => if acc.isEmpty then [] else [acc.reverse]
  | c :: rest, acc =>
    if c.isWhitespace then
      if acc.isEmpty then splitWsAux rest [] else acc.reverse :: splitWsAux rest []
    else splitWsAux rest (c :: acc)

/-- Python `s.split()` with no argument. -/
def pySplitWs (s : String) : List String := (splitWsAux s.data []).map (fun cs => ⟨cs⟩)

/-- Helper for Python `s.split(sep)`: scan left to right, breaking at each
non-overlapping occurrence of `sep`. The fuel argument (instantiated with
the length of the string, which bounds the number of steps) keeps the
recursion structural so the kernel can evaluate it. -/
def splitOnAux (sep : List Char) : Nat → List Char → List Char → List (List Char)
  | _, [], acc => [acc.reverse]
  | 0, cs, acc => [acc.reverse ++ cs]
  | fuel + 1, c :: rest, acc =>
    if sep.isPrefixOf (c :: rest) then
      acc.reverse :: splitOnAux sep fuel (rest.drop (sep.length - 1)) []
    else
      splitOnAux sep fuel rest (c :: acc)

/-- Python `s.split(sep)` for a non-empty separator. -/
def pySplit (s : String) (sep : String) : List String :=
  (splitOnAux sep.data s.data.length s.data []).map (fun cs => ⟨cs⟩)

/-- Python `needle in hay` on strings: substring containment. -/
def containsSubstring : (hay needle : List Char) → Bool
  | [], needle => needle.isEmpty
  | hay@(_ :: t), needle => needle.isPrefixOf hay || containsSubstring t needle

/-- Python `term in s` for strings. -/
def pyContains (s term : String) : Bool := containsSubstring s.data term.data

/-- Cardinality of the intersection of two Python sets of words,
`len(set(a) & set(b))`. -/
def setInterCard (a b : List String) : Nat :=
  (a.dedup.filter (fun w => b.contains w)).length

/-- A langchain `Document`: `page_content` plus the `source` entry of its
metadata mapping (`None` when the mapping has no such key). -/
structure Document where
  page_content : String
  metadata_source : Option String
deriving DecidableEq, Repr

/-- `doc.metadata.get('source', 'Unknown source')`. -/
def getSource (d : Document) : String := d.metadata_source.getD "Unknown source"

/-- One entry of the list returned by `RetrievalPipeline.retrieve`: the
dict `{'content': ..., 'source': ..., 'score': ...}`. The same shape is
threaded through the answering pipeline as `state["documents"]`. -/
structure DocEntry where
  content : String
  source : String
  score : ℚ
deriving DecidableEq, Repr

/-- The dense sub-index, `FAISS.from_documents(doc_splits, embeddings)`.
Modelled by the chunk list it was built from; the spec declares building
from zero chunks valid, so the constructor is total. -/
structure FAISSStore where
  documents : List Document
deriving DecidableEq, Repr

/-- The lexical sub-index, `BM25Retriever.from_documents(doc_splits)`. -/
structure BM25Store where
  documents : List Document
deriving DecidableEq, Repr

/-- The fusion layer, `EnsembleRetriever(retrievers=[...], weights=[0.7, 0.3])`.
Modelled by its weight vector; its ranking behaviour is an external oracle
passed to `retrieve` as the list of documents it returns. -/
structure EnsembleStore where
  weights : List ℚ
deriving DecidableEq, Repr

/-- State of `RetrievalPipeline` (`src/services/retrieval_service.py`). -/
structure RetrievalPipeline where
  vectorstore : Option FAISSStore
  keyword_retriever : Option BM25Store
  ensemble_retriever : Option EnsembleStore
  documents : List Document
  embeddings : Option Unit
deriving DecidableEq, Repr

namespace RetrievalPipeline

/-- The freshly constructed pipeline (`RetrievalPipeline.__init__`). -/
def init : RetrievalPipeline := ⟨none, none, none, [], none⟩

/-- `RetrievalPipeline.reset`: clear every field. -/
def reset (_p : RetrievalPipeline) : RetrievalPipeline :=
  { vectorstore := none
    keyword_retriever := none
    ensemble_retriever := none
    documents := []
    embeddings := some () }

/-- `RetrievalPipeline.rebuild(docs)`: reset, split the documents into
chunks (the tiktoken text splitter is an external deterministic function,
passed as the parameter `split`), then build both sub-indexes and the
ensemble with weights `[0.7, 0.3]`. -/
def rebuild (split : List Document → List Document)
    (p : RetrievalPipeline) (docs : List Document) : RetrievalPipeline :=
  let _ := p.reset
  let doc_splits := split docs
  { vectorstore := some ⟨doc_splits⟩
    keyword_retriever := some ⟨doc_splits⟩
    ensemble_retriever := some ⟨[(7 : ℚ)/10, 3/10]⟩
    documents := docs
    embeddings := some () }

/-- `RetrievalPipeline.has_documents`. -/
def has_documents (p : RetrievalPipeline) : Bool :=
  decide (0 < p.documents.length) && p.vectorstore.isSome && p.ensemble_retriever.isSome

end RetrievalPipeline

/-- The nine research keywords hard-coded in `RetrievalPipeline.retrieve`. -/
def researchTerms : List String :=
  ["study", "research", "method", "result", "conclusion",
   "analysis", "finding", "data", "experiment"]

/-- The paragraph filter of `RetrievalPipeline.retrieve`: keep a paragraph
when it shares more than one word with the question or contains one of the
nine research keywords. -/
def paragraphRelevant (question paragraph : String) : Bool :=
  1 < setInterCard (pySplitWs (pyLower question)) (pySplitWs (pyLower paragraph))
    || researchTerms.any (fun term => pyContains (pyLower paragraph) term)

/-- `[p.strip() for p in content.split('\n\n') if p.strip()]`. -/
def paragraphsOf (content : String) : List String :=
  ((pySplit content "\n\n").map pyStrip).filter (fun p => p ≠ "")

/-- The `relevant_parts` collected for one retrieved document. -/
def relevantParts (question content : String) : List String :=
  (paragraphsOf content).filter (paragraphRelevant question)

/-- Python `'\n\n'.join(parts)`. -/
def joinSep (sep : String) : List String → String
  | [] => ""
  | [x] => x
  | x :: xs => x ++ sep ++ joinSep sep xs

/-- The snippet entry `retrieve` builds for one document returned by the
ensemble retriever: `None` when no paragraph qualifies (the document is
dropped). The score is the constant `1.0` from line 97 of
`retrieval_service.py`. -/
def snippetEntry (question : String) (d : Document) : Option DocEntry :=
  let parts := relevantParts question d.page_content
  if parts = [] then none
  else some ⟨joinSep "\n\n" parts, getSource d, 1⟩

/-- The body of `RetrievalPipeline.retrieve` after the ensemble retriever
returned `docs`: per-document snippet extraction, then the fallback that
uses the first 1000 characters of the first document when every document
was dropped. -/
def retrieveFrom (question : String) (docs : List Document) : List DocEntry :=
  let relevant_content := docs.filterMap (snippetEntry question)
  if relevant_content = [] then
    match docs with
    | [] => []
    | d :: _ => [⟨pySlice 1000 d.page_content, getSource d, 1⟩]
  else relevant_content

/-- Failure modes of the retrieval pipeline surface as exceptions. -/
inductive RetrievalError
  /-- The `ValueError("No documents are currently loaded. ...")` raised by
  `retrieve` when `has_documents()` is false. -/
  | notReady
deriving DecidableEq, Repr

/-- `RetrievalPipeline.retrieve(question)`. The ensemble retriever is
external: `ensembleDocs` stands for `self.ensemble_retriever.invoke(question)`. -/
def RetrievalPipeline.retrieve (p : RetrievalPipeline) (ensembleDocs : List Document)
    (question : String) : Except RetrievalError (List DocEntry) :=
  if p.has_documents then .ok (retrieveFrom question ensembleDocs)
  else .error .notReady

/-- `RetrievalPipeline.query`: alias for `retrieve`. -/
def RetrievalPipeline.query (p : RetrievalPipeline) (ensembleDocs : List Document)
    (question : String) : Except RetrievalError (List DocEntry) :=
  p.retrieve ensembleDocs question

/-- A graded document built by `GraphService.grade_documents`: the dict
`{"content": ..., "source": ..., "grade": ..., "original_score": ...}`. -/
structure GradedDoc where
  content : String
  source : String
  grade : ℚ
  original_score : ℚ
deriving DecidableEq, Repr

/-- Descending order on grades, the comparator of
`graded_docs.sort(key=lambda x: x["grade"], reverse=True)`. -/
def gradeGE (a b : GradedDoc) : Prop := b.grade ≤ a.grade

instance : DecidableRel gradeGE := fun a b => inferInstanceAs (Decidable (b.grade ≤ a.grade))

instance : IsTotal GradedDoc gradeGE := ⟨fun a b => le_total b.grade a.grade⟩

instance : IsTrans GradedDoc gradeGE := ⟨fun _ _ _ h1 h2 => le_trans h2 h1⟩

/-- Grade one document. `oracleGrade doc` stands for the result of
`float(llm_service.invoke(grade_prompt).strip())`: `some q` when the
grading response parsed as the number `q`, `none` when parsing raised
(non-numeric response), in which case the original fused score is
substituted (line 89 of `graph_service.py`). -/
def gradeDoc (oracleGrade : DocEntry → Option ℚ) (doc : DocEntry) : GradedDoc :=
  { content := doc.content
    source := doc.source
    grade := (oracleGrade doc).getD doc.score
    original_score := doc.score }

/-- `GraphService.grade_documents` on `state["documents"]` (the path where
each oracle call returns a response): grade every document, never dropping
any, then sort descending by grade with a stable sort, as Python
`list.sort(..., reverse=True)` does. -/
def grade_documents (oracleGrade : DocEntry → Option ℚ) (docs : List DocEntry) :
    List GradedDoc :=
  List.insertionSort gradeGE (docs.map (gradeDoc oracleGrade))

/-- The selection step at the top of `GraphService.generate_answer`:
keep the graded documents with grade strictly above `0.5`; when none
qualify, keep the first two of the (descending-sorted) graded list. -/
def select_relevant (graded : List GradedDoc) : List GradedDoc :=
  let relevant_docs := graded.filter (fun d => (1 : ℚ)/2 < d.grade)
  if relevant_docs = [] then graded.take 2 else relevant_docs

/-- An external LLM backend (`ChatTogether` / `ChatOpenAI` instance).
`probe_ok` tells whether the liveness probe
`llm.invoke([{"role": "user", "content": "test"}])` succeeds, `invoke_ok`
whether a real chat invocation succeeds, and `response` the text a
successful invocation returns. -/
structure Backend where
  probe_ok : Bool
  invoke_ok : Bool
  response : String
deriving DecidableEq, Repr

/-- State of `LLMService`: the configured constructor results (`none` when
`setup_llm` caught an initialization error for that backend) and the
current `_primary_llm` / `_backup_llm` fields. -/
structure LLMService where
  primary_cfg : Option Backend
  backup_cfg : Option Backend
  _primary_llm : Option Backend
  _backup_llm : Option Backend
deriving DecidableEq, Repr

/-- `LLMService.setup_llm`: re-initialize both backends from the
configuration. -/
def LLMService.setup_llm (s : LLMService) : LLMService :=
  { s with _primary_llm := s.primary_cfg, _backup_llm := s.backup_cfg }

/-- Errors of the LLM service. -/
inductive LLMError
  /-- The `RuntimeError("No LLM service available")` of the `llm` property. -/
  | noService
  /-- The exception re-raised by `invoke` when the selected backend call fails. -/
  | invokeFailure
deriving DecidableEq, Repr

/-- The `llm` property: re-run `setup_llm` when both fields are `None`,
probe the primary and return it when the probe succeeds, otherwise fall
back to the backup, and raise when no backend is available. -/
def LLMService.llm (s : LLMService) : Except LLMError Backend :=
  let s := if s._primary_llm = none ∧ s._backup_llm = none then s.setup_llm else s
  match s._primary_llm with
  | some p =>
    if p.probe_ok then .ok p
    else
      match s._backup_llm with
      | some b => .ok b
      | none => .error .noService
  | none =>
    match s._backup_llm with
    | some b => .ok b
    | none => .error .noService

/-- `LLMService.invoke(prompt, config)`: select a backend through the
`llm` property, perform the real invocation on it, and re-raise any
failure of that invocation (the `except` clause logs and raises). -/
def LLMService.invoke (s : LLMService) (_prompt : String) : Except LLMError String :=
  match s.llm with
  | .error e => .error e
  | .ok backend => if backend.invoke_ok then .ok backend.response else .error .invokeFailure

/-- Whether an `Except` is in the error state (a raised Python exception). -/
def isErr : Except ε α → Bool
  | .error _ => true
  | .ok _ => false

/-- Whether an optional backend could serve a real invocation. -/
def backendCanServe : Option Backend → Bool
  | some b => b.invoke_ok
  | none => false

/-- A reference in the answer payload (`DocumentReference` in
`src/models/response_models.py`): file name, relevance score, snippet. -/
structure DocumentReference where
  source : String
  relevance_score : ℚ
  snippet : String
deriving DecidableEq, Repr

/-- The `QueryResponse` payload of the `POST /api/query` endpoint. -/
structure QueryResponse where
  answer : String
  references : List DocumentReference
  thread_id : String
deriving DecidableEq, Repr

/-- An HTTP error (`HTTPException(status_code=...)`). -/
structure HTTPError where
  status_code : Nat
deriving DecidableEq, Repr

/-- Python `source.split('/')[-1]`. -/
def lastPathComponent (s : String) : String := (pySplit s "/").getLastD ""

/-- The reference built from one retrieved (ungraded) document in
`handle_research_fallback`. -/
def refOfEntry (d : DocEntry) : DocumentReference :=
  ⟨lastPathComponent d.source, d.score, pySlice 500 d.content⟩

/-- The reference built from one graded document in the `query` endpoint. -/
def refOfGraded (d : GradedDoc) : DocumentReference :=
  ⟨lastPathComponent d.source, d.grade, pySlice 500 d.content⟩

/-- Descending order on `relevance_score`, the comparator of
`sorted(references, key=lambda x: x.relevance_score, reverse=True)`. -/
def refGE (a b : DocumentReference) : Prop := b.relevance_score ≤ a.relevance_score

instance : DecidableRel refGE :=
  fun a b => inferInstanceAs (Decidable (b.relevance_score ≤ a.relevance_score))

instance : IsTotal DocumentReference refGE := ⟨fun a b => le_total b.relevance_score a.relevance_score⟩

instance : IsTrans DocumentReference refGE := ⟨fun _ _ _ h1 h2 => le_trans h2 h1⟩

/-- The `From {source}:\n{content}` context block of
`handle_research_fallback`, joined with blank lines. -/
def fallbackContext (docs : List DocEntry) : String :=
  joinSep "\n\n" (docs.map (fun d => "From " ++ d.source ++ ":\n" ++ d.content))

/-- The `focused_question` string of `handle_research_fallback`. -/
def focusedQuestion (question : String) : String :=
  "Based ONLY on the provided research papers, answer the following question: "
    ++ question
    ++ "\n        Please provide a clear and concise answer, focusing on key findings and conclusions."

/-- The full prompt `handle_research_fallback` passes to
`llm_service.invoke`. -/
def fallbackPrompt (question : String) (docs : List DocEntry) : String :=
  "Context from papers:\n" ++ fallbackContext docs ++ "\n\nQuestion: " ++ focusedQuestion question

/-- `handle_research_fallback(question, docs, thread_id)`: one single-shot
synthesis call over the ungraded documents; on success a response whose
references list every document with its original score, on oracle failure
the exception is re-raised. `oracle` stands for `llm_service.invoke`. -/
def handle_research_fallback (oracle : String → Except Unit String)
    (question : String) (docs : List DocEntry) (thread_id : String) :
    Except Unit QueryResponse :=
  match oracle (fallbackPrompt question docs) with
  | .error e => .error e
  | .ok answer => .ok ⟨answer, docs.map refOfEntry, thread_id⟩

/-- The state returned by `graph_service.process_state`: the fields the
`query` endpoint reads (`answer` via `.get` with a default, and
`relevant_docs`, absent or empty both mapping to no references). -/
structure GraphOut where
  answer : Option String
  relevant_docs : List GradedDoc
deriving DecidableEq, Repr

/-- The vectorstore branch of the `POST /api/query` endpoint
(`query_router.py` lines 183-256). `graphStep` stands for
`graph_service.process_state` (its argument is `state["documents"]`),
`fallbackOracle` for the `llm_service.invoke` call of
`handle_research_fallback`, and `ensembleDocs` for the documents the
ensemble retriever returns. Raised exceptions surface as
`HTTPException(status_code=400)`. -/
def queryVectorstore (p : RetrievalPipeline) (ensembleDocs : List Document)
    (graphStep : String → List DocEntry → Except Unit GraphOut)
    (fallbackOracle : String → Except Unit String)
    (question thread_id : String) : Except HTTPError QueryResponse :=
  if p.has_documents = false then
    .ok ⟨"I cannot answer research questions as no documents have been loaded. Please upload some research papers first.",
         [], thread_id⟩
  else
    let retrieved_docs := retrieveFrom question ensembleDocs
    if retrieved_docs = [] then
      .ok ⟨"I couldn\x27t find any relevant information in the documents.", [], thread_id⟩
    else
      match graphStep question retrieved_docs with
      | .ok graph_result =>
        let references :=
          if graph_result.relevant_docs = [] then []
          else graph_result.relevant_docs.map refOfGraded
        .ok ⟨graph_result.answer.getD "Could not generate an answer from the documents.",
             List.insertionSort refGE references, thread_id⟩
      | .error _ =>
        match handle_research_fallback fallbackOracle question retrieved_docs thread_id with
        | .ok resp => .ok resp
        | .error _ => .error ⟨400⟩

/-- A conversation message (`HumanMessage` / `AIMessage`). -/
inductive ChatMessage
  | human (content : String)
  | ai (content : String)
deriving DecidableEq, Repr

/-- The `MemoryService.conversations` dict, as an association list keyed by
thread id (keys unique by construction). -/
abbrev Conversations := List (String × List ChatMessage)

/-- `MemoryService.get_messages(thread_id, last_k)`: unknown threads give
the empty list; `last_k` truncates to the last `k` messages, skipped when
`last_k` is `None` or `0` (both falsy in Python). -/
def get_messages (conv : Conversations) (thread_id : String)
    (last_k : Option Nat := none) : List ChatMessage :=
  let messages := ((conv.lookup thread_id).getD [])
  match last_k with
  | none => messages
  | some k => if k = 0 then messages else messages.drop (messages.length - k)

/-- `MemoryService.add_message(thread_id, message)`. -/
def add_message (conv : Conversations) (thread_id : String) (m : ChatMessage) :
    Conversations :=
  match conv.lookup thread_id with
  | some _ => conv.map (fun p => if p.1 = thread_id then (p.1, p.2 ++ [m]) else p)
  | none => conv ++ [(thread_id, [m])]

/-- `MemoryService.thread_exists(thread_id)`. -/
def thread_exists (conv : Conversations) (thread_id : String) : Bool :=
  (conv.lookup thread_id).isSome

/-- `MemoryService.clear_thread(thread_id)`: delete the key when present. -/
def clear_thread (conv : Conversations) (thread_id : String) : Conversations :=
  if thread_exists conv thread_id then conv.filter (fun p => p.1 ≠ thread_id) else conv

/-- The JSON body of `GET /api/thread/status/{thread_id}`. -/
structure ThreadStatus where
  thread_id : String
  message_count : Nat
  has_history : Bool
  messages : List (String × String)
deriving DecidableEq, Repr

/-- Rendering of one message in the thread-status payload. -/
def renderMessage : ChatMessage → String × String
  | .human c => ("human", c)
  | .ai c => ("ai", c)

/-- The `GET /api/thread/status/{thread_id}` endpoint: always succeeds,
reporting count, history flag and rendered messages. -/
def get_thread_status (conv : Conversations) (tid : String) : ThreadStatus :=
  let messages := get_messages conv tid
  ⟨tid, messages.length, decide (0 < messages.length), messages.map renderMessage⟩

/-- The `POST /api/thread/reset` endpoint: `404` when the thread does not
exist, otherwise clear it and return the success payload together with the
updated conversations map. -/
def reset_thread (conv : Conversations) (tid : String) :
    Except HTTPError (String × Conversations) :=
  if thread_exists conv tid = false then .error ⟨404⟩
  else .ok ("success", clear_thread conv tid)

/-! ## Helper lemmas -/

/-- A snippet entry is dropped exactly when no paragraph of the document
qualifies. -/
theorem snippetEntry_eq_none_iff (q : String) (d : Document) :
    snippetEntry q d = none ↔ relevantParts q d.page_content = [] := by
  simp only [snippetEntry]
  split <;> simp_all

/-- Characterization of a produced snippet entry. -/
theorem snippetEntry_eq_some_iff (q : String) (d : Document) (e : DocEntry) :
    snippetEntry q d = some e ↔
      relevantParts q d.page_content ≠ []
      ∧ e = ⟨joinSep "\n\n" (relevantParts q d.page_content), getSource d, 1⟩ := by
  simp only [snippetEntry]
  split <;> simp_all [eq_comm]

/-- Every entry produced by the snippet-extraction body carries score 1. -/
theorem score_one_of_mem_retrieveFrom (q : String) (docs : List Document) :
    ∀ e ∈ retrieveFrom q docs, e.score = 1 := by
  intro e he
  simp only [retrieveFrom] at he
  by_cases hrc : docs.filterMap (snippetEntry q) = []
  · rw [if_pos hrc] at he
    cases docs with
    | nil => simp at he
    | cons d rest =>
      simp only [List.mem_singleton] at he
      subst he
      rfl
  · rw [if_neg hrc] at he
    obtain ⟨d, _, hsome⟩ := List.mem_filterMap.mp he
    obtain ⟨-, rfl⟩ := (snippetEntry_eq_some_iff q d e).mp hsome
    rfl

/-! ## Claim theorems -/

/-- C1: the claim states that every entry returned by
`RetrievalPipeline.retrieve` carries the fused 0.7-dense / 0.3-lexical
similarity score of its chunk, not a constant. The code instead hard-codes
`score = 1.0` for every entry (line 97 and line 133 of
`retrieval_service.py`), so every successful retrieval returns entries
whose score field is the constant 1. -/
theorem retrieve_returns_constant_score (p : RetrievalPipeline)
    (ensembleDocs : List Document) (question : String) (out : List DocEntry)
    (h : p.retrieve ensembleDocs question = .ok out) :
    ∀ e ∈ out, e.score = 1 := by
  simp only [RetrievalPipeline.retrieve] at h
  split at h
  · cases h
    exact score_one_of_mem_retrieveFrom question ensembleDocs
  · cases h

/-- C1 witness: a concrete rebuilt pipeline and a concrete retrieved
document; the returned entry has score 1. -/
theorem retrieve_returns_constant_score_witness :
    RetrievalPipeline.retrieve
        (RetrievalPipeline.rebuild id RetrievalPipeline.init [⟨"the data study", some "papers/a.pdf"⟩])
        [⟨"the data study", some "papers/a.pdf"⟩] "question"
      = .ok [⟨"the data study", "papers/a.pdf", 1⟩]
    ∧ ∀ e ∈ [(⟨"the data study", "papers/a.pdf", 1⟩ : DocEntry)], e.score = 1 := by
  refine ⟨rfl, ?_⟩
  exact retrieve_returns_constant_score
    (RetrievalPipeline.rebuild id RetrievalPipeline.init [⟨"the data study", some "papers/a.pdf"⟩])
    [⟨"the data study", some "papers/a.pdf"⟩] "question"
    [⟨"the data study", "papers/a.pdf", 1⟩] rfl

/-- C4: after `rebuild(D)`, `has_documents()` is true iff `D` is non-empty
(rebuilding from zero documents succeeds and yields an empty-but-ready
snapshot), and `has_documents` is exactly "non-empty document set and both
the vectorstore and the ensemble retriever constructed". -/
theorem rebuild_has_documents_iff :
    ∀ (split : List Document → List Document) (p : RetrievalPipeline)
      (docs : List Document),
      (RetrievalPipeline.has_documents (RetrievalPipeline.rebuild split p docs) = true
        ↔ docs ≠ [])
      ∧ ∀ q : RetrievalPipeline,
          (q.has_documents = true ↔
            q.documents ≠ [] ∧ q.vectorstore.isSome = true ∧ q.ensemble_retriever.isSome = true) := by
  intro split p docs
  constructor
  · simp [RetrievalPipeline.rebuild, RetrievalPipeline.has_documents, List.length_pos]
  · intro q
    simp [RetrievalPipeline.has_documents, List.length_pos, and_assoc]

/-- C4 witness: one non-empty and one empty rebuild. -/
theorem rebuild_has_documents_iff_witness :
    RetrievalPipeline.has_documents
        (RetrievalPipeline.rebuild id RetrievalPipeline.init [⟨"t", none⟩]) = true
    ∧ RetrievalPipeline.has_documents
        (RetrievalPipeline.rebuild id RetrievalPipeline.init []) ≠ true := by
  constructor
  · exact (rebuild_has_documents_iff id RetrievalPipeline.init [⟨"t", none⟩]).1.mpr (by decide)
  · intro hcontra
    exact (rebuild_has_documents_iff id RetrievalPipeline.init []).1.mp hcontra rfl

/-- C5: after `reset()`, both `query` and `retrieve` fail with the NotReady
condition regardless of the prior pipeline state, and `reset` is
idempotent. -/
theorem reset_then_retrieve_not_ready :
    ∀ (p : RetrievalPipeline) (ensembleDocs : List Document) (question : String),
      RetrievalPipeline.query (p.reset) ensembleDocs question = .error .notReady
      ∧ RetrievalPipeline.retrieve (p.reset) ensembleDocs question = .error .notReady
      ∧ (p.reset).reset = p.reset := by
  intro p ensembleDocs question
  exact ⟨rfl, rfl, rfl⟩

/-- C5 witness: instantiation at a concrete previously-rebuilt pipeline. -/
theorem reset_then_retrieve_not_ready_witness :
    RetrievalPipeline.query
        (RetrievalPipeline.reset
          (RetrievalPipeline.rebuild id RetrievalPipeline.init [⟨"t", some "s.pdf"⟩]))
        [⟨"t", some "s.pdf"⟩] "q"
      = .error .notReady := by
  exact (reset_then_retrieve_not_ready
    (RetrievalPipeline.rebuild id RetrievalPipeline.init [⟨"t", some "s.pdf"⟩])
    [⟨"t", some "s.pdf"⟩] "q").1

/-- C9: `retrieve` does not return chunks verbatim: each retrieved chunk is
reduced to the paragraphs sharing more than one word with the question or
containing one of the nine research keywords (the test `paragraphRelevant`);
chunks whose every paragraph fails the test are dropped, and when every
chunk is dropped the result is one entry holding the first 1000 characters
of the first chunk — so a non-empty ensemble result always yields a
non-empty retrieval result. -/
theorem retrieve_snippet_filtering :
    ∀ (q : String) (d₀ : Document) (rest : List Document),
      retrieveFrom q (d₀ :: rest) ≠ []
      ∧ ((∀ d ∈ d₀ :: rest, relevantParts q d.page_content = []) →
          retrieveFrom q (d₀ :: rest) = [⟨pySlice 1000 d₀.page_content, getSource d₀, 1⟩])
      ∧ ((∃ d ∈ d₀ :: rest, relevantParts q d.page_content ≠ []) →
          retrieveFrom q (d₀ :: rest) = (d₀ :: rest).filterMap (snippetEntry q)
          ∧ ∀ e ∈ retrieveFrom q (d₀ :: rest), ∃ d ∈ d₀ :: rest,
              relevantParts q d.page_content ≠ []
              ∧ e = ⟨joinSep "\n\n" (relevantParts q d.page_content), getSource d, 1⟩) := by
  intro q d₀ rest
  by_cases hrc : (d₀ :: rest).filterMap (snippetEntry q) = []
  · have hfall : retrieveFrom q (d₀ :: rest)
        = [⟨pySlice 1000 d₀.page_content, getSource d₀, 1⟩] := by
      simp only [retrieveFrom]
      rw [if_pos hrc]
    refine ⟨by simp [hfall], fun _ => hfall, ?_⟩
    rintro ⟨d, hd, hne⟩
    exact absurd ((List.filterMap_eq_nil_iff.mp hrc) d hd) (fun hnone =>
      hne ((snippetEntry_eq_none_iff q d).mp hnone))
  · have heq : retrieveFrom q (d₀ :: rest) = (d₀ :: rest).filterMap (snippetEntry q) := by
      simp only [retrieveFrom]
      rw [if_neg hrc]
    refine ⟨by simp [heq, hrc], fun hall => ?_, fun _ => ⟨heq, ?_⟩⟩
    · exact absurd (List.filterMap_eq_nil_iff.mpr (fun d hd =>
        (snippetEntry_eq_none_iff q d).mpr (hall d hd))) hrc
    · intro e he
      rw [heq] at he
      obtain ⟨d, hd, hsome⟩ := List.mem_filterMap.mp he
      obtain ⟨hne, rfl⟩ := (snippetEntry_eq_some_iff q d e).mp hsome
      exact ⟨d, hd, hne, rfl⟩

/-- C9 witness: one chunk whose single paragraph contains research
keywords; the retrieval result is exactly its snippet entry. -/
theorem retrieve_snippet_filtering_witness :
    retrieveFrom "what here" [⟨"the data study", some "papers/a.pdf"⟩] ≠ []
    ∧ (retrieveFrom "what here" [⟨"the data study", some "papers/a.pdf"⟩]
        = [⟨"the data study", some "papers/a.pdf"⟩].filterMap (snippetEntry "what here")
      ∧ ∀ e ∈ retrieveFrom "what here" [⟨"the data study", some "papers/a.pdf"⟩],
          ∃ d ∈ [(⟨"the data study", some "papers/a.pdf"⟩ : Document)],
            relevantParts "what here" d.page_content ≠ []
            ∧ e = ⟨joinSep "\n\n" (relevantParts "what here" d.page_content), getSource d, 1⟩) := by
  obtain ⟨h1, -, h3⟩ :=
    retrieve_snippet_filtering "what here" ⟨"the data study", some "papers/a.pdf"⟩ []
  exact ⟨h1, h3 ⟨⟨"the data study", some "papers/a.pdf"⟩, by decide⟩⟩

/-- C2: the selection step of `generate_answer` keeps exactly the graded
chunks with grade strictly above 0.5 and, when none qualify, keeps the
first two entries of the graded list, which are the top 2 by descending
grade because `grade_documents` hands the list over sorted; in particular
grades [0.9, 0.3, 0.1] select exactly the 0.9 chunk and grades [0.3, 0.2]
select both. -/
theorem generate_answer_selection_rule :
    (∀ graded : List GradedDoc, List.Sorted gradeGE graded →
        (graded.filter (fun d => (1 : ℚ)/2 < d.grade) ≠ [] →
          select_relevant graded = graded.filter (fun d => (1 : ℚ)/2 < d.grade))
        ∧ (graded.filter (fun d => (1 : ℚ)/2 < d.grade) = [] →
            select_relevant graded = graded.take 2
            ∧ ∀ y ∈ graded.drop 2, ∀ x ∈ graded.take 2, y.grade ≤ x.grade))
    ∧ select_relevant [⟨"d1", "s", 9/10, 1⟩, ⟨"d2", "s", 3/10, 1⟩, ⟨"d3", "s", 1/10, 1⟩]
        = [⟨"d1", "s", 9/10, 1⟩]
    ∧ select_relevant [⟨"d1", "s", 3/10, 1⟩, ⟨"d2", "s", 2/10, 1⟩]
        = [⟨"d1", "s", 3/10, 1⟩, ⟨"d2", "s", 2/10, 1⟩] := by
  refine ⟨?_, by norm_num [select_relevant], by norm_num [select_relevant]⟩
  intro graded hsorted
  constructor
  · intro hne
    simp only [select_relevant]
    rw [if_neg hne]
  · intro hnil
    refine ⟨by simp only [select_relevant]; rw [hnil, if_pos rfl], ?_⟩
    intro y hy x hx
    have hpw : List.Pairwise gradeGE (graded.take 2 ++ graded.drop 2) := by
      rw [List.take_append_drop]
      exact hsorted
    exact (List.pairwise_append.mp hpw).2.2 x hx y hy

/-- C2 witness: the sorted list with grades [0.9, 0.3, 0.1]; the filter is
non-empty and selection returns it. -/
theorem generate_answer_selection_rule_witness :
    select_relevant [⟨"d1", "s", 9/10, 1⟩, ⟨"d2", "s", 3/10, 1⟩, ⟨"d3", "s", 1/10, 1⟩]
      = List.filter (fun d => decide ((1 : ℚ)/2 < d.grade))
          [⟨"d1", "s", 9/10, 1⟩, ⟨"d2", "s", 3/10, 1⟩, ⟨"d3", "s", 1/10, 1⟩] := by
  exact (generate_answer_selection_rule.1
    [⟨"d1", "s", 9/10, 1⟩, ⟨"d2", "s", 3/10, 1⟩, ⟨"d3", "s", 1/10, 1⟩]
    (by norm_num [List.Sorted, List.pairwise_cons, gradeGE])).1
    (by norm_num [List.filter])

/-- C3: `grade_documents` never drops a chunk (the graded list has the
length of the input), returns the graded list sorted descending by grade,
and a chunk whose grading response does not parse as a number is graded
with its original fused retrieval score. -/
theorem grade_documents_fallback_sorted :
    ∀ (oracleGrade : DocEntry → Option ℚ) (docs : List DocEntry),
      (grade_documents oracleGrade docs).length = docs.length
      ∧ List.Sorted gradeGE (grade_documents oracleGrade docs)
      ∧ ∀ d ∈ docs, oracleGrade d = none →
          (⟨d.content, d.source, d.score, d.score⟩ : GradedDoc)
            ∈ grade_documents oracleGrade docs := by
  intro oracleGrade docs
  refine ⟨?_, ?_, ?_⟩
  · simp [grade_documents]
  · exact List.sorted_insertionSort gradeGE (docs.map (gradeDoc oracleGrade))
  · intro d hd hnone
    have hmem : gradeDoc oracleGrade d ∈ docs.map (gradeDoc oracleGrade) :=
      List.mem_map_of_mem (gradeDoc oracleGrade) hd
    have : gradeDoc oracleGrade d = ⟨d.content, d.source, d.score, d.score⟩ := by
      simp [gradeDoc, hnone]
    rw [this] at hmem
    exact (List.mem_insertionSort gradeGE).mpr hmem

/-- C3 witness: two chunks, the first with a non-numeric grading response;
it stays in the graded list carrying its original score, the list keeps
both chunks and is sorted descending. -/
theorem grade_documents_fallback_sorted_witness :
    (grade_documents (fun d => if d.content = "alpha" then none else some (7/10))
        [⟨"alpha", "s1", 3/10⟩, ⟨"beta", "s2", 1/10⟩]).length
      = ([⟨"alpha", "s1", 3/10⟩, ⟨"beta", "s2", 1/10⟩] : List DocEntry).length
    ∧ List.Sorted gradeGE
        (grade_documents (fun d => if d.content = "alpha" then none else some (7/10))
          [⟨"alpha", "s1", 3/10⟩, ⟨"beta", "s2", 1/10⟩])
    ∧ (⟨"alpha", "s1", 3/10, 3/10⟩ : GradedDoc)
        ∈ grade_documents (fun d => if d.content = "alpha" then none else some (7/10))
            [⟨"alpha", "s1", 3/10⟩, ⟨"beta", "s2", 1/10⟩] := by
  obtain ⟨h1, h2, h3⟩ :=
    grade_documents_fallback_sorted (fun d => if d.content = "alpha" then none else some (7/10))
      [⟨"alpha", "s1", 3/10⟩, ⟨"beta", "s2", 1/10⟩]
  exact ⟨h1, h2, h3 ⟨"alpha", "s1", 3/10⟩ (List.mem_cons_self _ _) rfl⟩

/-- C6 counterexample: the claim states that `invoke` raises only if
neither backend can serve the request. Here the primary backend passes the
liveness probe but its real invocation fails, while the backup backend is
healthy; `invoke` nevertheless raises. -/
theorem invoke_raises_despite_healthy_backup :
    isErr
        (LLMService.invoke
          ⟨some ⟨true, false, "p"⟩, some ⟨true, true, "ok"⟩,
           some ⟨true, false, "p"⟩, some ⟨true, true, "ok"⟩⟩ "prompt")
      = true
    ∧ backendCanServe
        (LLMService.mk (some ⟨true, false, "p"⟩) (some ⟨true, true, "ok"⟩)
          (some ⟨true, false, "p"⟩) (some ⟨true, true, "ok"⟩))._backup_llm
      = true := by
  exact ⟨rfl, rfl⟩

/-- C6 amended: a failure of the primary liveness probe falls back to the
backup backend for that call; `invoke` raises exactly when backend
selection raises (no backend available) or when the real invocation on the
selected backend fails — an invocation failure on the selected backend is
not retried against the other backend. -/
theorem invoke_failure_characterization :
    ∀ (s : LLMService) (prompt : String),
      (∀ p b, s._primary_llm = some p → p.probe_ok = false → s._backup_llm = some b →
          b.invoke_ok = true → s.invoke prompt = .ok b.response)
      ∧ (isErr (s.invoke prompt) = true ↔
          isErr s.llm = true ∨ ∃ be, s.llm = .ok be ∧ be.invoke_ok = false) := by
  intro s prompt
  constructor
  · intro p b hp hprobe hb hbinv
    simp [LLMService.invoke, LLMService.llm, hp, hb, hprobe, hbinv]
  · cases hl : s.llm with
    | error e => simp [LLMService.invoke, hl, isErr]
    | ok be => cases hbe : be.invoke_ok <;> simp [LLMService.invoke, hl, isErr, hbe]

/-- C6 amended witness: primary probe fails, backup healthy; the call is
served by the backup. -/
theorem invoke_failure_characterization_witness :
    LLMService.invoke
        ⟨some ⟨false, false, "p"⟩, some ⟨true, true, "backup answer"⟩,
         some ⟨false, false, "p"⟩, some ⟨true, true, "backup answer"⟩⟩ "q"
      = .ok "backup answer" := by
  exact (invoke_failure_characterization
      ⟨some ⟨false, false, "p"⟩, some ⟨true, true, "backup answer"⟩,
       some ⟨false, false, "p"⟩, some ⟨true, true, "backup answer"⟩⟩ "q").1
    ⟨false, false, "p"⟩ ⟨true, true, "backup answer"⟩ rfl rfl rfl rfl

/-- C8 counterexample: the claim states every grade lies in [0,1] for
every possible Oracle grading response. A response parsing to the number 2
(for instance the text "2.0") is graded 2, outside [0,1]. -/
theorem grade_outside_unit_interval :
    (grade_documents (fun _ => some 2) [⟨"c", "s", 1⟩]).map GradedDoc.grade = [2]
    ∧ ¬ ((2 : ℚ) ≤ 1) := by
  exact ⟨rfl, by norm_num⟩

/-- C8 amended: grades are the unclamped parsed Oracle responses, original
scores on parse failure; they lie in [0,1] exactly under the assumption
that every parsed response lies in [0,1] and every original fused score
lies in [0,1] (the latter holds in the running system, where retrieval
scores are the constant 1.0). -/
theorem grade_in_unit_interval_of_bounded :
    ∀ (oracleGrade : DocEntry → Option ℚ) (docs : List DocEntry),
      (∀ d ∈ docs, ∀ q, oracleGrade d = some q → 0 ≤ q ∧ q ≤ 1) →
      (∀ d ∈ docs, 0 ≤ d.score ∧ d.score ≤ 1) →
      ∀ g ∈ grade_documents oracleGrade docs, 0 ≤ g.grade ∧ g.grade ≤ 1 := by
  intro oracleGrade docs hresp hscore g hg
  have hg' : g ∈ docs.map (gradeDoc oracleGrade) :=
    (List.mem_insertionSort gradeGE).mp hg
  obtain ⟨d, hd, rfl⟩ := List.mem_map.mp hg'
  simp only [gradeDoc]
  cases horacle : oracleGrade d with
  | none => simpa using hscore d hd
  | some q => simpa using hresp d hd q horacle

/-- C8 amended witness: an oracle answering 1 for the single chunk of
score 1; the resulting grade is in [0,1]. -/
theorem grade_in_unit_interval_of_bounded_witness :
    0 ≤ (GradedDoc.mk "c" "s" 1 1).grade ∧ (GradedDoc.mk "c" "s" 1 1).grade ≤ 1 := by
  exact grade_in_unit_interval_of_bounded (fun _ => some 1) [⟨"c", "s", 1⟩]
    (by intro d _ q hq; injection hq with h; subst h; norm_num)
    (by intro d hd; simp at hd; subst hd; norm_num)
    ⟨"c", "s", 1, 1⟩
    (by simp [grade_documents, gradeDoc, List.insertionSort, List.orderedInsert])

/-- C7: when graph processing fails on a knowledge-base query, the `query`
endpoint degrades to the single-shot fallback synthesis over the original
ungraded retrieved chunks and the un-rewritten question: a successful
fallback yields a well-formed response whose references list every
retrieved chunk, and the request fails (HTTP 400) exactly when the
fallback oracle itself fails. -/
theorem graph_failure_triggers_fallback :
    ∀ (p : RetrievalPipeline) (ensembleDocs : List Document)
      (graphStep : String → List DocEntry → Except Unit GraphOut)
      (fallbackOracle : String → Except Unit String) (question tid : String),
      p.has_documents = true →
      retrieveFrom question ensembleDocs ≠ [] →
      isErr (graphStep question (retrieveFrom question ensembleDocs)) = true →
      (∀ a, fallbackOracle (fallbackPrompt question (retrieveFrom question ensembleDocs)) = .ok a →
          queryVectorstore p ensembleDocs graphStep fallbackOracle question tid
            = .ok ⟨a, (retrieveFrom question ensembleDocs).map refOfEntry, tid⟩)
      ∧ (isErr (queryVectorstore p ensembleDocs graphStep fallbackOracle question tid) = true
          ↔ isErr (fallbackOracle (fallbackPrompt question (retrieveFrom question ensembleDocs))) = true) := by
  intro p ensembleDocs graphStep fallbackOracle question tid hdocs hret hgraph
  have hgraph' : ∃ e, graphStep question (retrieveFrom question ensembleDocs) = .error e := by
    cases hg : graphStep question (retrieveFrom question ensembleDocs) with
    | error e => exact ⟨e, rfl⟩
    | ok _ => rw [hg] at hgraph; simp [isErr] at hgraph
  obtain ⟨e, he⟩ := hgraph'
  constructor
  · intro a ha
    simp only [queryVectorstore, hdocs]
    rw [if_neg (by simp), if_neg hret, he]
    simp only [handle_research_fallback, ha]
  · simp only [queryVectorstore, hdocs]
    rw [if_neg (by simp), if_neg hret, he]
    cases hf : fallbackOracle (fallbackPrompt question (retrieveFrom question ensembleDocs)) with
    | error u => simp [handle_research_fallback, hf, isErr]
    | ok a => simp [handle_research_fallback, hf, isErr]

/-- C7 witness: graph processing always throws, the fallback oracle
answers; the endpoint returns the fallback answer with a reference to the
single retrieved chunk. -/
theorem graph_failure_triggers_fallback_witness :
    queryVectorstore
        (RetrievalPipeline.rebuild id RetrievalPipeline.init [⟨"the data study", some "papers/a.pdf"⟩])
        [⟨"the data study", some "papers/a.pdf"⟩]
        (fun _ _ => .error ()) (fun _ => .ok "fallback answer") "q" "t1"
      = .ok ⟨"fallback answer",
            (retrieveFrom "q" [⟨"the data study", some "papers/a.pdf"⟩]).map refOfEntry, "t1"⟩ := by
  exact (graph_failure_triggers_fallback
      (RetrievalPipeline.rebuild id RetrievalPipeline.init [⟨"the data study", some "papers/a.pdf"⟩])
      [⟨"the data study", some "papers/a.pdf"⟩]
      (fun _ _ => .error ()) (fun _ => .ok "fallback answer") "q" "t1"
      rfl (by decide) rfl).1 "fallback answer" rfl

/-- No thread id survives the key deletion performed by `clear_thread`. -/
theorem lookup_clear_filter_eq_none (l : Conversations) (tid : String) :
    (l.filter (fun p => p.1 ≠ tid)).lookup tid = none := by
  induction l with
  | nil => rfl
  | cons hd tl ih =>
    obtain ⟨k, v⟩ := hd
    rw [List.filter_cons]
    by_cases h : k = tid
    · rw [if_neg (by simp [h])]
      exact ih
    · rw [if_pos (by simp [h])]
      have hbeq : (tid == k) = false := by
        simp only [beq_eq_false_iff_ne, ne_eq]
        exact fun heq => h heq.symm
      simp only [List.lookup, hbeq]
      exact ih

/-- C10: `thread_status` on a never-used thread id succeeds with count 0,
no history and no messages (it does not fail with NotFound), while
`reset_thread` on the same unknown id fails with 404; consequently a
second `reset_thread` right after a successful one fails with 404. -/
theorem thread_status_vs_reset_thread :
    (∀ (conv : Conversations) (tid : String), conv.lookup tid = none →
        get_thread_status conv tid = ⟨tid, 0, false, []⟩
        ∧ reset_thread conv tid = .error ⟨404⟩)
    ∧ ∀ (conv : Conversations) (tid res : String) (conv' : Conversations),
        reset_thread conv tid = .ok (res, conv') →
        reset_thread conv' tid = .error ⟨404⟩ := by
  constructor
  · intro conv tid h
    constructor
    · simp [get_thread_status, get_messages, h]
    · simp [reset_thread, thread_exists, h]
  · intro conv tid res conv' h
    simp only [reset_thread] at h
    split at h
    · cases h
    · rename_i hex
      have hconv' : conv' = clear_thread conv tid := by
        cases h
        rfl
      have hnone : conv'.lookup tid = none := by
        rw [hconv']
        simp only [clear_thread]
        split
        · exact lookup_clear_filter_eq_none conv tid
        · rename_i hth
          cases hb : thread_exists conv tid with
          | false => exact absurd hb hex
          | true => exact absurd hb hth
      simp [reset_thread, thread_exists, hnone]

/-- C10 witness: a map holding only thread "t1". Status of the unknown
thread "t2" succeeds empty while its reset gives 404, and resetting "t1"
twice gives 404 the second time. -/
theorem thread_status_vs_reset_thread_witness :
    (get_thread_status [("t1", [ChatMessage.human "hi"])] "t2" = ⟨"t2", 0, false, []⟩
      ∧ reset_thread [("t1", [ChatMessage.human "hi"])] "t2" = .error ⟨404⟩)
    ∧ reset_thread ([] : Conversations) "t1" = .error ⟨404⟩ := by
  refine ⟨thread_status_vs_reset_thread.1 [("t1", [ChatMessage.human "hi"])] "t2" rfl, ?_⟩
  exact thread_status_vs_reset_thread.2 [("t1", [ChatMessage.human "hi"])] "t1" "success" [] rfl
